import Mathlib

/-!
Verification of the break/work cycle state machine of the `move` reminder
utility.  The Go source drives a two-phase cycle (Working / OnBreak) with
timer callbacks and user actions.  We embed the controller state and every
method of `MoveReminder` (src/main.go) as pure functions over an explicit
state record; times are integer seconds, and each timer or user callback is
an event applied to the state at an explicit instant.  GUI and OS
collaborators (window, labels, button, notifier, focus raiser, logger) are
represented by the observable fields they mutate; collaborator failures are
boolean inputs to the functions that shell out.  The close-intercept of the
policy-(c) variant (second file of src/unnamed/part_000) and the
out-of-process variant (src/unnamed/part_001) are embedded separately.
-/

/-- Startup configuration: the two flag-provided durations (in seconds) and
the verbosity flag (src/main.go lines 17-21, 301-309). -/
structure Config where
  workInterval : Int
  breakDuration : Int
  verbose : Bool
  deriving Repr, DecidableEq

/-- The two macro-phases of the cycle (spec section 4.1).  The code has no
explicit phase variable; the model phase is OnBreak from `showBreakWindow`
until `scheduleNext` runs. -/
inductive Phase where
  | Working
  | OnBreak
  deriving Repr, DecidableEq

/-- State of `MoveReminder` (src/main.go lines 23-35) together with the
observable fields of its collaborators.  `clock` is the current time;
`breakTickAt` models the pending `time.AfterFunc(time.Second, updateTimer)`
callback (some t = a callback will fire at time t); `breakAt` models the
pending `time.AfterFunc(workInterval, ...)` scheduled by `scheduleNext`.
`notifyCount`, `scheduleNextCount` and `focusRequestCount` count collaborator
invocations; `workLogs` and `errorLogs` record logger output. -/
structure MRState where
  clock : Int
  breakEnd : Int
  workEnd : Int
  timerActive : Bool
  breakTickAt : Option Int
  tickerRunning : Bool
  workTickerRunning : Bool
  focusRunning : Bool
  breakWindowOpen : Bool
  skipHandlerInstalled : Bool
  closeButtonEnabled : Bool
  closeButtonText : String
  timerLabel : String
  messageText : String
  phase : Phase
  breakAt : Option Int
  notifyCount : Nat
  scheduleNextCount : Nat
  focusRequestCount : Nat
  quitFlag : Bool
  workLogs : List String
  errorLogs : List String
  deriving Repr, DecidableEq

/-- Zero-padded two-digit rendering, the `%02d` of `fmt.Sprintf`. -/
def pad2 (n : Int) : String :=
  if n < 10 then "0" ++ toString n else toString n

/-- `fmt.Sprintf "%02d:%02d" minutes seconds` where
`minutes = int(remaining.Minutes())` and
`seconds = int(remaining.Seconds()) % 60` (src/main.go lines 151-152),
for integer-second remainders. -/
def fmtMMSS (remaining : Int) : String :=
  pad2 (remaining / 60) ++ ":" ++ pad2 (remaining % 60)

/-- Message shown while the break is running (src/main.go line 82). -/
def breakIntroMsg : String :=
  "Stand up, stretch, and move around.\nTake a break from your computer!"

/-- Message shown once the break countdown has completed (src/main.go
line 143). -/
def breakCompleteMsg : String :=
  "Break time is complete!\nYou can now close this window and return to work."

/-- Message shown by the policy-(c) close intercept while time remains
(src/unnamed/part_000 line 408). -/
def mandatoryMsg : String :=
  "Break is mandatory and cannot be closed early.\n\nOptions:\n• Press \x27S\x27 to skip break\n• Press Cmd+Q to quit application"

/-- `showNotification` (src/main.go lines 188-197): shells out to the OS
notifier; on failure logs and proceeds.  `ok` is the collaborator outcome. -/
def showNotification (ok : Bool) (s : MRState) : MRState :=
  if ok then
    { s with notifyCount := s.notifyCount + 1 }
  else
    { s with notifyCount := s.notifyCount + 1,
             errorLogs := s.errorLogs ++ ["Failed to show notification"] }

/-- `updateTimer` (src/main.go lines 135-160).  Returns immediately when
`timerActive` is false; at `remaining <= 0` sets the complete message, the
fixed label, relabels and enables the close button, and does not reschedule;
otherwise pushes the formatted countdown and re-arms the one-second
`time.AfterFunc` chain (modelled by `breakTickAt := some (now + 1)`). -/
def updateTimer (s : MRState) (now : Int) : MRState :=
  let s := { s with breakTickAt := none }
  if s.timerActive = false then s
  else if s.breakEnd - now ≤ 0 then
    { s with messageText := breakCompleteMsg,
             timerLabel := "00:00",
             closeButtonText := "Return to Work",
             closeButtonEnabled := true }
  else
    { s with timerLabel := "Time remaining: " ++ fmtMMSS (s.breakEnd - now),
             breakTickAt := some (now + 1) }

/-- `startWorkTimer` (src/main.go lines 247-256): sets
`workEnd = now + workInterval` and starts the reporter ticker. -/
def startWorkTimer (c : Config) (s : MRState) (now : Int) : MRState :=
  { s with workEnd := now + c.workInterval, workTickerRunning := true }

/-- Interval of the work reporter ticker (src/main.go lines 250-254):
10 seconds by default, 1 second in verbose mode. -/
def reporterInterval (c : Config) : Int :=
  if c.verbose then 1 else 10

/-- `scheduleNext` (src/main.go lines 282-293): logs, starts the work timer,
and arms the `time.AfterFunc(workInterval, ...)` that will fire the next
break (modelled by `breakAt`).  `scheduleNextCount` counts invocations and
`phase` records the re-entry into Working. -/
def scheduleNext (c : Config) (s : MRState) (now : Int) : MRState :=
  let s := { s with scheduleNextCount := s.scheduleNextCount + 1,
                    phase := Phase.Working }
  let s := startWorkTimer c s now
  { s with breakAt := some (now + c.workInterval) }

/-- `skipBreak` (src/main.go lines 162-177): clears `timerActive`, stops the
ticker, hides the break window, and schedules the next work interval.  Note
there is no entry guard: every invocation runs all effects. -/
def skipBreak (c : Config) (s : MRState) (now : Int) : MRState :=
  let s := { s with timerActive := false, tickerRunning := false }
  let s := { s with breakWindowOpen := false }
  scheduleNext c s now

/-- `closeBreakWindow` (src/main.go lines 225-245): clears `timerActive`,
stops the ticker, disables the close button (to prevent double clicks),
hides the break window, and schedules the next work interval. -/
def closeBreakWindow (c : Config) (s : MRState) (now : Int) : MRState :=
  let s := { s with timerActive := false, tickerRunning := false }
  let s := { s with closeButtonEnabled := false }
  let s := { s with breakWindowOpen := false }
  scheduleNext c s now

/-- The key handler registered by `showBreakWindow` (src/main.go lines
97-103): on the S key it calls `skipBreak`, with no condition on remaining
time or break completion. -/
def onTypedKey (c : Config) (s : MRState) (key : String) (now : Int) : MRState :=
  if key = "S" then skipBreak c s now else s

/-- The close intercept installed by `showBreakWindow` in src/main.go
(lines 65-76): any window-manager close attempt stops the timers, hides the
window and quits the application. -/
def closeInterceptMain (s : MRState) : MRState :=
  let s := { s with timerActive := false, tickerRunning := false }
  let s := { s with breakWindowOpen := false }
  { s with quitFlag := true }

/-- The close intercept of the policy-(c) variant (second file of
src/unnamed/part_000, lines 401-414): while `remaining > 0` the close is
blocked and the message restates the escape options; once `remaining <= 0`
it performs `closeBreakWindow`, exactly the acknowledge action. -/
def closeInterceptPolicyC (c : Config) (s : MRState) (now : Int) : MRState :=
  if 0 < s.breakEnd - now then
    { s with messageText := mandatoryMsg }
  else
    closeBreakWindow c s now

/-- `bringToFront` (src/main.go lines 179-186): shells out; on failure logs
and proceeds. -/
def bringToFront (ok : Bool) (s : MRState) : MRState :=
  if ok then s
  else { s with errorLogs := s.errorLogs ++ ["Failed to bring window to front"] }

/-- One iteration of the `maintainFocus` loop (src/main.go lines 199-223):
stops when `timerActive` is false or `remaining <= 0`; otherwise requests
focus and shells out to raise the window (`ok` = outcome of the shell-out). -/
def maintainFocusTick (s : MRState) (now : Int) (ok : Bool) : MRState :=
  if s.timerActive = false then { s with focusRunning := false }
  else if s.breakEnd - now ≤ 0 then { s with focusRunning := false }
  else bringToFront ok { s with focusRequestCount := s.focusRequestCount + 1 }

/-- `showBreakWindow` (src/main.go lines 55-128): sets
`breakEnd = now + breakDuration`, invokes the notifier, creates and shows
the fullscreen break window with the close button disabled and the S-key
handler installed, starts the focus-retention goroutine and the one-second
ticker, and runs `startTimer` (`timerActive := true` then an immediate
`updateTimer`). -/
def showBreakWindow (c : Config) (notifyOk : Bool) (s : MRState) (now : Int) : MRState :=
  let s := { s with breakEnd := now + c.breakDuration }
  let s := showNotification notifyOk s
  let s := { s with breakWindowOpen := true,
                    skipHandlerInstalled := true,
                    closeButtonEnabled := false,
                    closeButtonText := "Close Break",
                    messageText := breakIntroMsg,
                    timerLabel := "",
                    phase := Phase.OnBreak,
                    focusRunning := true,
                    tickerRunning := true }
  let s := { s with timerActive := true }
  updateTimer s now

/-- `stopWorkTimer` (src/main.go lines 276-280). -/
def stopWorkTimer (s : MRState) : MRState :=
  { s with workTickerRunning := false }

/-- The body of the `time.AfterFunc` armed by `scheduleNext` (src/main.go
lines 287-292): stop the work timer, then show the break window.  This is
the Working to OnBreak transition. -/
def workDeadlineFire (c : Config) (notifyOk : Bool) (s : MRState) (now : Int) : MRState :=
  let s := { s with breakAt := none }
  showBreakWindow c notifyOk (stopWorkTimer s) now

/-- One iteration of the work reporter goroutine (src/main.go lines
258-273): nothing if the ticker is stopped; at `remaining <= 0` stops the
ticker and logs completion; otherwise logs the remaining time.  It performs
no phase transition. -/
def workReporterTick (s : MRState) (now : Int) : MRState :=
  if s.workTickerRunning = false then s
  else if s.workEnd - now ≤ 0 then
    { s with workTickerRunning := false,
             workLogs := s.workLogs ++ ["Work interval completed - break time!"] }
  else
    { s with workLogs :=
        s.workLogs ++ ["Work time remaining " ++ fmtMMSS (s.workEnd - now)] }

/-- Events delivered to the controller: the pending `updateTimer` callback,
a focus-loop tick (with the outcome of the raise shell-out), the S key, a
click on the close button, a window-manager close attempt, a reporter tick,
and the work-deadline callback (with the outcome of the notification
shell-out). -/
inductive Event where
  | breakTick
  | focusTick (raiseOk : Bool)
  | pressS
  | clickAck
  | closeAttempt
  | workTick
  | workDeadline (notifyOk : Bool)
  deriving Repr, DecidableEq

/-- One serialized event applied `d` seconds after the previous one (so the
clock is monotone by construction).  A callback event only fires when its
source is armed: `breakTick` when the AfterFunc is pending at exactly this
instant, `focusTick` while the focus loop runs, `pressS` once the key
handler has been installed on the (possibly hidden) break window,
`clickAck` only while the window shows the button enabled, `closeAttempt`
while the window is open, `workDeadline` when its AfterFunc is pending at
exactly this instant.  After a quit everything is frozen. -/
def step (c : Config) (s : MRState) (ev : Event) (d : Nat) : MRState :=
  let now := s.clock + (d : Int)
  let s := { s with clock := now }
  if s.quitFlag then s else
  match ev with
  | Event.breakTick =>
      match s.breakTickAt with
      | some t => if now = t then updateTimer s now else s
      | none => s
  | Event.focusTick ok => if s.focusRunning then maintainFocusTick s now ok else s
  | Event.pressS => if s.skipHandlerInstalled then onTypedKey c s "S" now else s
  | Event.clickAck =>
      if s.breakWindowOpen && s.closeButtonEnabled then closeBreakWindow c s now else s
  | Event.closeAttempt => if s.breakWindowOpen then closeInterceptMain s else s
  | Event.workTick => workReporterTick s now
  | Event.workDeadline ok =>
      match s.breakAt with
      | some t => if now = t then workDeadlineFire c ok s now else s
      | none => s

/-- Run a trace of delayed events. -/
def run (c : Config) (s : MRState) (tr : List (Event × Nat)) : MRState :=
  tr.foldl (fun s ed => step c s ed.1 ed.2) s

/-- The dismissal indicator of the spec data model.  The code carries no
named breakDismissed field; its role is played by the negation of
`timerActive`, which is set on break entry and cleared by every exit path. -/
def breakDismissed (s : MRState) : Bool := !s.timerActive

/-- The guard of spec section 4.1: the close button may only be enabled once
the current time has reached the break deadline. -/
def ButtonInv (s : MRState) : Prop :=
  s.closeButtonEnabled = true → s.breakEnd ≤ s.clock

instance (s : MRState) : Decidable (ButtonInv s) :=
  if h : s.closeButtonEnabled = true then
    if h2 : s.breakEnd ≤ s.clock then Decidable.isTrue (fun _ => h2)
    else Decidable.isFalse (fun f => h2 (f h))
  else Decidable.isTrue (fun he => absurd he h)

namespace ProcVariant

/-- State of the parent process of the out-of-process variant
(src/unnamed/part_001, lines 25-28), plus collaborator observables:
`breakProcessRuns` counts successfully started break-window child
processes. -/
structure PState where
  workEnd : Int
  workTickerRunning : Bool
  notifyCount : Nat
  scheduleNextCount : Nat
  breakProcessRuns : Nat
  workLogs : List String
  errorLogs : List String
  deriving Repr, DecidableEq

/-- `showNotification` of the variant (src/unnamed/part_001 lines 56-65):
log on failure and proceed. -/
def showNotification (ok : Bool) (s : PState) : PState :=
  if ok then
    { s with notifyCount := s.notifyCount + 1 }
  else
    { s with notifyCount := s.notifyCount + 1,
             errorLogs := s.errorLogs ++ ["Failed to show notification"] }

/-- `startWorkTimer` entry of the variant (src/unnamed/part_001 lines
67-76). -/
def startWorkTimer (c : Config) (s : PState) (now : Int) : PState :=
  { s with workEnd := now + c.workInterval, workTickerRunning := true }

/-- `scheduleNext` of the variant (src/unnamed/part_001 lines 103-107). -/
def scheduleNext (c : Config) (s : PState) (now : Int) : PState :=
  startWorkTimer c { s with scheduleNextCount := s.scheduleNextCount + 1 } now

/-- `showBreakWindow` of the variant (src/unnamed/part_001 lines 34-54):
notify, then `cmd.Start` the child GUI process.  When the start FAILS the
method logs the error and RETURNS: `scheduleNext` is never reached, so no
further work interval is scheduled.  When it succeeds it waits for the
child, then calls `scheduleNext` (`endNow` = the time the child exits). -/
def showBreakWindow (c : Config) (notifyOk spawnOk : Bool) (s : PState)
    (endNow : Int) : PState :=
  let s := showNotification notifyOk s
  if spawnOk = false then
    { s with errorLogs := s.errorLogs ++ ["Failed to start break window process"] }
  else
    scheduleNext c { s with breakProcessRuns := s.breakProcessRuns + 1 } endNow

/-- One iteration of the work reporter goroutine of the variant
(src/unnamed/part_001 lines 78-94): unlike src/main.go, the tick that
observes `remaining <= 0` itself stops the ticker and invokes
`showBreakWindow`. -/
def workTick (c : Config) (notifyOk spawnOk : Bool) (s : PState)
    (now endNow : Int) : PState :=
  if s.workTickerRunning = false then s
  else if s.workEnd - now ≤ 0 then
    let s := { s with workTickerRunning := false,
                      workLogs := s.workLogs ++ ["Work interval completed - break time!"] }
    showBreakWindow c notifyOk spawnOk s endNow
  else
    { s with workLogs :=
        s.workLogs ++ ["Work time remaining " ++ fmtMMSS (s.workEnd - now)] }

end ProcVariant

/-! Concrete fixtures used by counterexamples and witnesses. -/

/-- A small concrete configuration: 60 s work interval, 5 s break, not
verbose. -/
def cfg1 : Config :=
  { workInterval := 60, breakDuration := 5, verbose := false }

/-- A concrete mid-Working state: the work timer is running, a break is due
at t = 60, nothing of the break machinery exists yet. -/
def sWork0 : MRState :=
  { clock := 0, breakEnd := 0, workEnd := 60, timerActive := false,
    breakTickAt := none, tickerRunning := false, workTickerRunning := true,
    focusRunning := false, breakWindowOpen := false,
    skipHandlerInstalled := false, closeButtonEnabled := false,
    closeButtonText := "", timerLabel := "", messageText := "",
    phase := Phase.Working, breakAt := some 60, notifyCount := 0,
    scheduleNextCount := 0, focusRequestCount := 0, quitFlag := false,
    workLogs := [], errorLogs := [] }

/-- The break entered from `sWork0` when its deadline fires at t = 60. -/
def sBreak0 : MRState :=
  step cfg1 sWork0 (Event.workDeadline true) 60

/-- A concrete parent-process state of the out-of-process variant whose
work countdown has just reached zero. -/
def pWork0 : ProcVariant.PState :=
  { workEnd := 10, workTickerRunning := true, notifyCount := 0,
    scheduleNextCount := 0, breakProcessRuns := 0, workLogs := [],
    errorLogs := [] }

/-- The break of `sBreak0` after its countdown has fully elapsed: four
one-second ticks bring the clock to 64 with the final tick pending at 65,
the deadline. -/
def sBreakDone : MRState :=
  run cfg1 sBreak0
    [(Event.breakTick, 1), (Event.breakTick, 1), (Event.breakTick, 1), (Event.breakTick, 1)]

/-- C5: the Working to OnBreak transition (the deadline callback armed by
`scheduleNext`) invokes the notifier, opens the break window, sets the
break-phase deadline to now + breakDuration, and clears the dismissal
indicator; it does not schedule a work interval and leaves the work log and
work deadline alone. -/
theorem work_to_break_side_effects (c : Config) (ok : Bool) (s : MRState) (now : Int) :
    (workDeadlineFire c ok s now).notifyCount = s.notifyCount + 1 ∧
    (workDeadlineFire c ok s now).breakEnd = now + c.breakDuration ∧
    (workDeadlineFire c ok s now).breakWindowOpen = true ∧
    (workDeadlineFire c ok s now).timerActive = true ∧
    breakDismissed (workDeadlineFire c ok s now) = false ∧
    (workDeadlineFire c ok s now).phase = Phase.OnBreak ∧
    (workDeadlineFire c ok s now).workTickerRunning = false ∧
    (workDeadlineFire c ok s now).scheduleNextCount = s.scheduleNextCount ∧
    (workDeadlineFire c ok s now).workLogs = s.workLogs ∧
    (workDeadlineFire c ok s now).workEnd = s.workEnd := by
  cases ok <;>
    simp [workDeadlineFire, showBreakWindow, showNotification, updateTimer,
      stopWorkTimer, breakDismissed] <;>
    split <;> simp

/-- C10: the S-key handler calls `skipBreak` unconditionally (no check on
remaining time, completion or the dismissal flag), `skipBreak` stops the
timers, closes the window and schedules the next work interval, and the
acknowledge path differs from it only in disabling the close button. -/
theorem skip_key_always_operative (c : Config) (s : MRState) (now : Int) :
    onTypedKey c s "S" now = skipBreak c s now ∧
    (skipBreak c s now).timerActive = false ∧
    (skipBreak c s now).tickerRunning = false ∧
    (skipBreak c s now).breakWindowOpen = false ∧
    (skipBreak c s now).workEnd = now + c.workInterval ∧
    (skipBreak c s now).scheduleNextCount = s.scheduleNextCount + 1 ∧
    (skipBreak c s now).phase = Phase.Working ∧
    closeBreakWindow c s now = { skipBreak c s now with closeButtonEnabled := false } := by
  simp [onTypedKey, skipBreak, closeBreakWindow, scheduleNext, startWorkTimer]

/-- Once `timerActive` is cleared, a countdown callback changes no
observable field (it only consumes its own pending schedule). -/
lemma breakTick_inert (c : Config) (s : MRState) (d : Nat)
    (h : s.timerActive = false) :
    (step c s Event.breakTick d).timerLabel = s.timerLabel ∧
    (step c s Event.breakTick d).messageText = s.messageText ∧
    (step c s Event.breakTick d).closeButtonEnabled = s.closeButtonEnabled ∧
    (step c s Event.breakTick d).scheduleNextCount = s.scheduleNextCount ∧
    (step c s Event.breakTick d).phase = s.phase := by
  rcases hb : s.breakTickAt with _ | t <;>
    simp only [step, hb, updateTimer, h] <;> split_ifs <;> simp_all

/-- Once `timerActive` is cleared, a focus-loop tick changes no observable
field (the loop just stops). -/
lemma focusTick_inert (c : Config) (s : MRState) (d : Nat) (ok : Bool)
    (h : s.timerActive = false) :
    (step c s (Event.focusTick ok) d).focusRequestCount = s.focusRequestCount ∧
    (step c s (Event.focusTick ok) d).scheduleNextCount = s.scheduleNextCount ∧
    (step c s (Event.focusTick ok) d).phase = s.phase := by
  simp only [step, maintainFocusTick, bringToFront]
  split_ifs <;> simp_all

/-- C6: both exit paths set the next work deadline to now + workInterval and
clear `timerActive`; afterwards a pending countdown callback or a
focus-loop tick leaves every observable field (labels, message, button,
invocation counters, phase, window) unchanged — the break-phase tasks are
dead. -/
theorem break_exit_sets_deadline_and_stops_tasks (c : Config) (s : MRState)
    (now : Int) (d : Nat) (ok : Bool) :
    (skipBreak c s now).workEnd = now + c.workInterval ∧
    (closeBreakWindow c s now).workEnd = now + c.workInterval ∧
    (skipBreak c s now).timerActive = false ∧
    (closeBreakWindow c s now).timerActive = false ∧
    (skipBreak c s now).tickerRunning = false ∧
    (closeBreakWindow c s now).tickerRunning = false ∧
    (step c (skipBreak c s now) Event.breakTick d).timerLabel = (skipBreak c s now).timerLabel ∧
    (step c (skipBreak c s now) Event.breakTick d).messageText = (skipBreak c s now).messageText ∧
    (step c (skipBreak c s now) Event.breakTick d).closeButtonEnabled = (skipBreak c s now).closeButtonEnabled ∧
    (step c (skipBreak c s now) Event.breakTick d).scheduleNextCount = (skipBreak c s now).scheduleNextCount ∧
    (step c (skipBreak c s now) Event.breakTick d).phase = (skipBreak c s now).phase ∧
    (step c (skipBreak c s now) (Event.focusTick ok) d).focusRequestCount = (skipBreak c s now).focusRequestCount ∧
    (step c (skipBreak c s now) (Event.focusTick ok) d).scheduleNextCount = (skipBreak c s now).scheduleNextCount ∧
    (step c (closeBreakWindow c s now) Event.breakTick d).timerLabel = (closeBreakWindow c s now).timerLabel ∧
    (step c (closeBreakWindow c s now) Event.breakTick d).messageText = (closeBreakWindow c s now).messageText ∧
    (step c (closeBreakWindow c s now) Event.breakTick d).closeButtonEnabled = (closeBreakWindow c s now).closeButtonEnabled ∧
    (step c (closeBreakWindow c s now) Event.breakTick d).scheduleNextCount = (closeBreakWindow c s now).scheduleNextCount ∧
    (step c (closeBreakWindow c s now) Event.breakTick d).phase = (closeBreakWindow c s now).phase ∧
    (step c (closeBreakWindow c s now) (Event.focusTick ok) d).focusRequestCount = (closeBreakWindow c s now).focusRequestCount ∧
    (step c (closeBreakWindow c s now) (Event.focusTick ok) d).scheduleNextCount = (closeBreakWindow c s now).scheduleNextCount := by
  have hs : (skipBreak c s now).timerActive = false := by
    simp [skipBreak, scheduleNext, startWorkTimer]
  have hc : (closeBreakWindow c s now).timerActive = false := by
    simp [closeBreakWindow, scheduleNext, startWorkTimer]
  obtain ⟨b1, b2, b3, b4, b5⟩ := breakTick_inert c (skipBreak c s now) d hs
  obtain ⟨f1, f2, _⟩ := focusTick_inert c (skipBreak c s now) d ok hs
  obtain ⟨b6, b7, b8, b9, b10⟩ := breakTick_inert c (closeBreakWindow c s now) d hc
  obtain ⟨f3, f4, _⟩ := focusTick_inert c (closeBreakWindow c s now) d ok hc
  refine ⟨?_, ?_, hs, hc, ?_, ?_, b1, b2, b3, b4, b5, f1, f2, b6, b7, b8, b9, b10, f3, f4⟩ <;>
    simp [skipBreak, closeBreakWindow, scheduleNext, startWorkTimer]

/-- C1 is false as stated: from the concrete break state `sBreak0` the skip
action invoked twice runs the full exit transition twice — the second
invocation schedules a second work interval, so the exit does not execute
at most once and no dismissed guard prevents the duplicate. -/
theorem skip_invoked_twice_runs_exit_twice :
    ¬ ((run cfg1 sBreak0 [(Event.pressS, 0), (Event.pressS, 0)]).scheduleNextCount ≤ 1) := by
  decide

/-- C7: in src/main.go a failed notification shell-out does not stop the
Working to OnBreak transition and a failed focus raise does not stop the
focus loop; but in the out-of-process variant (src/unnamed/part_001),
evaluated at the failing input (work countdown at zero, child-process start
fails), the code logs the error and never calls `scheduleNext`: no break is
shown and no further work interval is scheduled, while a successful start
does schedule one. -/
theorem collaborator_failure_effects :
    (workDeadlineFire cfg1 false sWork0 60).breakWindowOpen = true ∧
    (workDeadlineFire cfg1 false sWork0 60).phase = Phase.OnBreak ∧
    (workDeadlineFire cfg1 false sWork0 60).errorLogs = ["Failed to show notification"] ∧
    (maintainFocusTick sBreak0 61 false).focusRunning = true ∧
    (maintainFocusTick sBreak0 61 false).focusRequestCount = 1 ∧
    (ProcVariant.workTick cfg1 true false pWork0 10 10).scheduleNextCount = 0 ∧
    (ProcVariant.workTick cfg1 true false pWork0 10 10).workTickerRunning = false ∧
    (ProcVariant.workTick cfg1 true false pWork0 10 10).breakProcessRuns = 0 ∧
    (ProcVariant.workTick cfg1 true false pWork0 10 10).errorLogs = ["Failed to start break window process"] ∧
    (ProcVariant.workTick cfg1 true true pWork0 10 10).scheduleNextCount = 1 := by
  decide

/-- Building block for the enable-only-at-zero contract: one event preserves
the guard that the close button is enabled only at or after the break
deadline. -/
lemma buttonInv_step (c : Config) (s : MRState) (e : Event) (d : Nat)
    (h : ButtonInv s) : ButtonInv (step c s e d) := by
  have hck : s.clock ≤ s.clock + (d : Int) := by omega
  unfold ButtonInv at h ⊢
  cases e with
  | breakTick =>
      rcases hb : s.breakTickAt with _ | t <;>
        simp only [step, hb, updateTimer] <;> split_ifs <;> intro he <;>
        first
          | exact le_trans (h he) hck
          | omega
          | simp_all
  | focusTick ok =>
      simp only [step, maintainFocusTick, bringToFront]
      split_ifs <;> intro he <;> exact le_trans (h he) hck
  | pressS =>
      simp only [step, onTypedKey, skipBreak, scheduleNext, startWorkTimer]
      split_ifs <;> intro he <;> exact le_trans (h he) hck
  | clickAck =>
      simp only [step, closeBreakWindow, scheduleNext, startWorkTimer]
      split_ifs <;> intro he <;>
        first
          | exact le_trans (h he) hck
          | simp_all
  | closeAttempt =>
      simp only [step, closeInterceptMain]
      split_ifs <;> intro he <;> exact le_trans (h he) hck
  | workTick =>
      simp only [step, workReporterTick]
      split_ifs <;> intro he <;> exact le_trans (h he) hck
  | workDeadline ok =>
      rcases ha : s.breakAt with _ | t <;>
        simp only [step, ha, workDeadlineFire, stopWorkTimer, showBreakWindow,
          showNotification, updateTimer] <;>
        split_ifs <;> intro he <;>
        first
          | exact le_trans (h he) hck
          | omega
          | simp_all

/-- The button guard is preserved along every trace. -/
lemma buttonInv_run (c : Config) (tr : List (Event × Nat)) (s : MRState)
    (h : ButtonInv s) : ButtonInv (run c s tr) := by
  induction tr generalizing s with
  | nil => exact h
  | cons ed tl ih => exact ih (step c s ed.1 ed.2) (buttonInv_step c s ed.1 ed.2 h)

/-- C2: (i) along any trace the close button is enabled only at or after the
break deadline, so it is disabled at every instant of
[breakStart, breakStart + breakDuration); (ii) the countdown callback that
observes remaining <= 0 enables it; (iii) while remaining > 0, any event
other than the skip key and a window-manager close attempt leaves the phase,
the window, the dismissal state and the transition count unchanged. -/
theorem ack_control_disabled_until_zero (c : Config) (s0 : MRState)
    (tr : List (Event × Nat)) (s1 s2 : MRState) (now1 : Int) (e : Event) (d : Nat)
    (h0 : ButtonInv s0)
    (h1 : s1.timerActive = true) (h2 : s1.breakEnd ≤ now1)
    (h3 : ButtonInv s2) (h4 : s2.breakAt = none)
    (h5 : e ≠ Event.pressS) (h6 : e ≠ Event.closeAttempt)
    (h7 : s2.clock + (d : Int) < s2.breakEnd) :
    ButtonInv (run c s0 tr) ∧
    (updateTimer s1 now1).closeButtonEnabled = true ∧
    ((step c s2 e d).phase = s2.phase ∧
     (step c s2 e d).scheduleNextCount = s2.scheduleNextCount ∧
     (step c s2 e d).breakWindowOpen = s2.breakWindowOpen ∧
     (step c s2 e d).timerActive = s2.timerActive) := by
  refine ⟨buttonInv_run c tr s0 h0, ?_, ?_⟩
  · simp only [updateTimer, h1]
    split_ifs <;> simp_all
  · cases e with
    | pressS => exact absurd rfl h5
    | closeAttempt => exact absurd rfl h6
    | breakTick =>
        rcases hb : s2.breakTickAt with _ | t <;>
          simp only [step, hb, updateTimer] <;> split_ifs <;> simp_all
    | focusTick ok =>
        simp only [step, maintainFocusTick, bringToFront]
        split_ifs <;> simp_all
    | clickAck =>
        simp only [step]
        split_ifs with hq hg
        · simp
        · simp only [Bool.and_eq_true] at hg
          have := h3 hg.2
          omega
        · simp
    | workTick =>
        simp only [step, workReporterTick]
        split_ifs <;> simp_all
    | workDeadline ok =>
        simp only [step, h4]
        split_ifs <;> simp

/-- C2 witness at concrete inputs: at the deadline instant the completed
countdown callback enables the button. -/
theorem ack_control_disabled_until_zero_witness :
    (updateTimer sBreakDone 65).closeButtonEnabled = true :=
  (ack_control_disabled_until_zero cfg1 sWork0 [(Event.workDeadline true, 60)]
    sBreakDone sBreak0 65 Event.breakTick 1 (by decide) (by decide) (by decide)
    (by decide) (by decide) (by decide) (by decide) (by decide)).2.1

/-- C3: the countdown callback that observes remaining <= 0 leaves the state
in OnBreak with the window open and the countdown not dismissed, schedules
no work interval and does not re-arm itself; it only updates the displayed
affordances (complete message, fixed 00:00 label, enabled relabelled
button). -/
theorem countdown_zero_no_auto_transition (c : Config) (s : MRState) (d : Nat)
    (h1 : s.quitFlag = false) (h2 : s.timerActive = true)
    (h3 : s.breakTickAt = some (s.clock + (d : Int)))
    (h4 : s.breakEnd ≤ s.clock + (d : Int))
    (h5 : s.phase = Phase.OnBreak) (h6 : s.breakWindowOpen = true) :
    (step c s Event.breakTick d).phase = Phase.OnBreak ∧
    (step c s Event.breakTick d).breakWindowOpen = true ∧
    (step c s Event.breakTick d).timerActive = true ∧
    (step c s Event.breakTick d).scheduleNextCount = s.scheduleNextCount ∧
    (step c s Event.breakTick d).workEnd = s.workEnd ∧
    (step c s Event.breakTick d).closeButtonEnabled = true ∧
    (step c s Event.breakTick d).timerLabel = "00:00" ∧
    (step c s Event.breakTick d).messageText = breakCompleteMsg ∧
    (step c s Event.breakTick d).breakTickAt = none := by
  simp only [step, h3, updateTimer]
  split_ifs <;> simp_all

/-- C3 witness: the final countdown tick of the concrete break. -/
theorem countdown_zero_no_auto_transition_witness :
    (step cfg1 sBreakDone Event.breakTick 1).phase = Phase.OnBreak :=
  (countdown_zero_no_auto_transition cfg1 sBreakDone 1 (by decide) (by decide)
    (by decide) (by decide) (by decide) (by decide)).1

/-- C4: under the policy-(c) close intercept, a window-manager close attempt
with remaining > 0 changes no phase state and only restates the escape
options in the message, and a close attempt at remaining <= 0 is literally
the acknowledge action `closeBreakWindow`. -/
theorem close_attempt_policy_c (c : Config) (s : MRState) (now : Int) :
    (0 < s.breakEnd - now →
      (closeInterceptPolicyC c s now).phase = s.phase ∧
      (closeInterceptPolicyC c s now).scheduleNextCount = s.scheduleNextCount ∧
      (closeInterceptPolicyC c s now).breakWindowOpen = s.breakWindowOpen ∧
      (closeInterceptPolicyC c s now).timerActive = s.timerActive ∧
      (closeInterceptPolicyC c s now).breakEnd = s.breakEnd ∧
      (closeInterceptPolicyC c s now).messageText = mandatoryMsg) ∧
    (s.breakEnd - now ≤ 0 →
      closeInterceptPolicyC c s now = closeBreakWindow c s now) := by
  constructor
  · intro h
    unfold closeInterceptPolicyC
    rw [if_pos h]
    simp
  · intro h
    unfold closeInterceptPolicyC
    rw [if_neg (by omega)]

/-- C4 witness: a blocked close attempt mid-break and an allowed one at the
deadline of the concrete break. -/
theorem close_attempt_policy_c_witness :
    (closeInterceptPolicyC cfg1 sBreak0 61).messageText = mandatoryMsg ∧
    closeInterceptPolicyC cfg1 sBreakDone 65 = closeBreakWindow cfg1 sBreakDone 65 :=
  ⟨((close_attempt_policy_c cfg1 sBreak0 61).1 (by decide)).2.2.2.2.2,
   (close_attempt_policy_c cfg1 sBreakDone 65).2 (by decide)⟩

/-- C8: while remaining > 0 each countdown callback pushes the label
"Time remaining: MM:SS" (minutes and seconds zero-padded) built from
remaining = breakEnd - now and re-arms itself one second later, without
touching the button; once remaining <= 0 it displays the fixed complete
indicator, enables the relabelled button and never re-arms, so the display
stops decrementing. -/
theorem countdown_tick_display (s : MRState) (now : Int)
    (h : s.timerActive = true) :
    (0 < s.breakEnd - now →
      (updateTimer s now).timerLabel = "Time remaining: " ++ fmtMMSS (s.breakEnd - now) ∧
      (updateTimer s now).breakTickAt = some (now + 1) ∧
      (updateTimer s now).closeButtonEnabled = s.closeButtonEnabled ∧
      (updateTimer s now).scheduleNextCount = s.scheduleNextCount ∧
      (updateTimer s now).phase = s.phase) ∧
    (s.breakEnd - now ≤ 0 →
      (updateTimer s now).timerLabel = "00:00" ∧
      (updateTimer s now).messageText = breakCompleteMsg ∧
      (updateTimer s now).closeButtonText = "Return to Work" ∧
      (updateTimer s now).closeButtonEnabled = true ∧
      (updateTimer s now).breakTickAt = none ∧
      (updateTimer s now).scheduleNextCount = s.scheduleNextCount ∧
      (updateTimer s now).phase = s.phase) ∧
    (∀ m : Int, m < 10 → pad2 m = "0" ++ toString m) ∧
    (∀ r : Int, fmtMMSS r = pad2 (r / 60) ++ ":" ++ pad2 (r % 60)) := by
  refine ⟨?_, ?_, ?_, fun r => rfl⟩
  · intro hr
    simp only [updateTimer, h]
    split_ifs <;> simp_all
    omega
  · intro hr
    simp only [updateTimer, h]
    split_ifs <;> simp_all
  · intro m hm
    unfold pad2
    rw [if_pos hm]

/-- C8 witness: a mid-break tick of the concrete break shows 00:04 and the
deadline tick shows the fixed indicator. -/
theorem countdown_tick_display_witness :
    (updateTimer sBreak0 61).timerLabel = "Time remaining: " ++ fmtMMSS (sBreak0.breakEnd - 61) ∧
    (updateTimer sBreakDone 65).timerLabel = "00:00" :=
  ⟨(((countdown_tick_display sBreak0 61 (by decide)).1) (by decide)).1,
   (((countdown_tick_display sBreakDone 65 (by decide)).2.1) (by decide)).1⟩

/-- C9: the reporter interval is 1 second in verbose mode and 10 seconds
otherwise (a function of the verbosity flag alone), and a reporter tick
either logs the remaining work time (remaining > 0) or stops the ticker and
logs completion (remaining <= 0), changing nothing else — in particular no
phase state. -/
theorem work_reporter_cadence (c : Config) (s : MRState) (now : Int) :
    reporterInterval c = (if c.verbose then 1 else 10) ∧
    (c.verbose = true → reporterInterval c = 1) ∧
    (c.verbose = false → reporterInterval c = 10) ∧
    (s.workTickerRunning = true → 0 < s.workEnd - now →
      workReporterTick s now =
        { s with workLogs := s.workLogs ++ ["Work time remaining " ++ fmtMMSS (s.workEnd - now)] }) ∧
    (s.workTickerRunning = true → s.workEnd - now ≤ 0 →
      workReporterTick s now =
        { s with workTickerRunning := false,
                 workLogs := s.workLogs ++ ["Work interval completed - break time!"] }) := by
    refine ⟨rfl, ?_, ?_, ?_, ?_⟩
    · intro h; simp [reporterInterval, h]
    · intro h; simp [reporterInterval, h]
    · intro h1 h2
      unfold workReporterTick
      rw [if_neg (by simp [h1]), if_neg (by omega)]
    · intro h1 h2
      unfold workReporterTick
      rw [if_neg (by simp [h1]), if_pos (by simpa using h2)]

/-- C9 witness: both reporter branches at concrete inputs. -/
theorem work_reporter_cadence_witness :
    reporterInterval cfg1 = 10 ∧
    workReporterTick sWork0 5 =
      { sWork0 with workLogs := sWork0.workLogs ++ ["Work time remaining " ++ fmtMMSS (sWork0.workEnd - 5)] } ∧
    workReporterTick sWork0 60 =
      { sWork0 with workTickerRunning := false,
                    workLogs := sWork0.workLogs ++ ["Work interval completed - break time!"] } :=
  ⟨(work_reporter_cadence cfg1 sWork0 5).2.2.1 (by decide),
   (work_reporter_cadence cfg1 sWork0 5).2.2.2.1 (by decide) (by decide),
   (work_reporter_cadence cfg1 sWork0 60).2.2.2.2 (by decide) (by decide)⟩

/-- C1, amended to what the code guarantees: countdown-zero is not an exit
trigger, so a countdown-zero callback followed by skip in the same instant
runs the exit exactly once; after an exit the countdown and focus callbacks
are inert (guarded by `timerActive`) and a second click of the acknowledge
button is inert (the button was disabled); but the skip path itself has no
dismissed guard, so invoking the skip action a second time repeats the whole
exit, scheduling the next work interval twice. -/
theorem break_exit_guards_amended (c : Config) (s : MRState) (d : Nat)
    (now2 : Int) (ok : Bool)
    (h1 : s.timerActive = true)
    (h2 : s.breakTickAt = some (s.clock + (d : Int)))
    (h3 : s.breakEnd ≤ s.clock + (d : Int))
    (h4 : s.quitFlag = false)
    (h5 : s.skipHandlerInstalled = true) :
    (run c s [(Event.breakTick, d), (Event.pressS, 0)]).scheduleNextCount
        = s.scheduleNextCount + 1 ∧
    (step c (skipBreak c s now2) Event.breakTick 1).scheduleNextCount
        = (skipBreak c s now2).scheduleNextCount ∧
    (step c (skipBreak c s now2) (Event.focusTick ok) 1).scheduleNextCount
        = (skipBreak c s now2).scheduleNextCount ∧
    (skipBreak c s now2).scheduleNextCount = s.scheduleNextCount + 1 ∧
    (step c (closeBreakWindow c s now2) Event.clickAck 0).scheduleNextCount
        = (closeBreakWindow c s now2).scheduleNextCount ∧
    (skipBreak c (skipBreak c s now2) now2).scheduleNextCount
        = s.scheduleNextCount + 2 := by
  have hs : (skipBreak c s now2).timerActive = false := by
    simp [skipBreak, scheduleNext, startWorkTimer]
  have hc : (closeBreakWindow c s now2).closeButtonEnabled = false := by
    simp [closeBreakWindow, scheduleNext, startWorkTimer]
  refine ⟨?_, (breakTick_inert c (skipBreak c s now2) 1 hs).2.2.2.1,
    (focusTick_inert c (skipBreak c s now2) 1 ok hs).2.1, ?_, ?_, ?_⟩
  · have p1 : (step c s Event.breakTick d).scheduleNextCount = s.scheduleNextCount := by
      simp only [step, h2, updateTimer]
      split_ifs <;> simp_all
    have p2 : (step c s Event.breakTick d).skipHandlerInstalled = true := by
      simp only [step, h2, updateTimer]
      split_ifs <;> simp_all
    have p3 : (step c s Event.breakTick d).quitFlag = false := by
      simp only [step, h2, updateTimer]
      split_ifs <;> simp_all
    show (step c (step c s Event.breakTick d) Event.pressS 0).scheduleNextCount
        = s.scheduleNextCount + 1
    generalize hgen : step c s Event.breakTick d = s1
    rw [hgen] at p1 p2 p3
    simp [step, onTypedKey, skipBreak, scheduleNext, startWorkTimer, p1, p2, p3]
  · simp [skipBreak, scheduleNext, startWorkTimer]
  · simp only [step]
    split_ifs <;> simp_all
  · simp [skipBreak, scheduleNext, startWorkTimer]

/-- C1 amended witness: the double skip at the end of the concrete break
schedules two work intervals. -/
theorem break_exit_guards_amended_witness :
    (skipBreak cfg1 (skipBreak cfg1 sBreakDone 65) 65).scheduleNextCount
        = sBreakDone.scheduleNextCount + 2 :=
  (break_exit_guards_amended cfg1 sBreakDone 1 65 true (by decide) (by decide)
    (by decide) (by decide) (by decide)).2.2.2.2.2
